import Mathlib

/-!
Verification of the caching and notification-computation layer of the
`notifier` repository: the `try_cache` fetch-cache bridge, the SQL query
file cache (`DatabaseWithSqlFileCache`), the per-user new-post digest
computation (`SqliteDriver.get_new_posts_for_user`) and the scheduled
tasks (`tasks.py`), shallowly embedded as executable Lean definitions.
-/

namespace Notifier

/-! ## Resilient fetch-cache bridge: `try_cache`
(`src/notifier/database/drivers/base.py`, lines 16-63) -/

/-- Embeds `try_cache`. The fetch callable `get` is represented by its
outcome: `Except.ok v` when it returns `v`, `Except.error e` when it raises
an exception of kind `e`. `catch_` is the tuple of exception kinds to
catch (the Python default `None` becomes the empty list, as in the source's
`if catch is None: catch = tuple()`). The store callable is represented by
the state transformer `store` over cache state `cache`; the result carries
the list of arguments `store` was invoked with together with the final
cache state, and an uncaught exception propagates as `Except.error`.
Mirrors the source: `value` is initialised to `do_not_store`, overwritten
by a successful fetch, left alone when a listed exception is caught, and
`store value` runs only when `value != do_not_store`. -/
def try_cache {E T C : Type} [DecidableEq E] [DecidableEq T]
    (get : Except E T) (store : C → T → C) (do_not_store : T)
    (catch_ : List E) (cache : C) : Except E (List T × C) :=
  let value : Except E T :=
    match get with
    | Except.error e => if e ∈ catch_ then Except.ok do_not_store else Except.error e
    | Except.ok v => Except.ok v
  match value with
  | Except.error e => Except.error e
  | Except.ok v =>
      if v = do_not_store then Except.ok ([], cache)
      else Except.ok ([v], store cache v)

/-- `try_cache` at its default skip value: the Python signature defaults
`do_not_store` to `None`, embedded as `Option.none`. -/
def try_cache_default {E T C : Type} [DecidableEq E] [DecidableEq T]
    (get : Except E (Option T)) (store : C → Option T → C)
    (catch_ : List E) (cache : C) : Except E (List (Option T) × C) :=
  try_cache get store none catch_ cache

/-! ## Query resource cache: `DatabaseWithSqlFileCache`
(`src/notifier/database/drivers/base.py`, lines 182-230) -/

/-- One entry of `self.query_cache`: the dict
`{"script": ..., "query": ...}` built by `read_query_file`. -/
structure QueryDefinition where
  script : Bool
  query : String
deriving DecidableEq, Repr

/-- A file of the builtin-queries directory: its file name and its full
contents. -/
structure QueryFile where
  name : String
  contents : String
deriving DecidableEq, Repr

/-- The in-memory query cache `self.query_cache`, a dict keyed by query
name; lookups take the first matching entry. -/
abbrev QueryCache : Type := List (String × QueryDefinition)

/-- Dict lookup `self.query_cache[query_name]`. -/
def cacheLookup (cache : QueryCache) (query_name : String) :
    Option QueryDefinition :=
  (List.find? (fun kv => kv.1 = query_name) cache).map (fun kv => kv.2)

/-- Dict assignment `self.query_cache[query_name] = ...`. -/
def cacheInsert (cache : QueryCache) (query_name : String)
    (d : QueryDefinition) : QueryCache :=
  (query_name, d) :: cache

/-- Dict membership `query_name in self.query_cache`. -/
def cacheHas (cache : QueryCache) (query_name : String) : Bool :=
  (List.find? (fun kv => kv.1 = query_name) cache).isSome

/-- `clear_query_file_cache`: resets `self.query_cache` to the empty
dict. -/
def clear_query_file_cache : QueryCache := []

/-- `path.name.split(".")[0]`: the file name up to its first dot. -/
def baseName (file_name : String) : String :=
  String.mk (file_name.data.takeWhile (fun c => c ≠ '.'))

/-- Python's `str.endswith`, over the underlying character lists. -/
def endswith (s suffix : String) : Bool :=
  suffix.data.isSuffixOf s.data

/-- Embeds `read_query_file`. The builtin-queries directory is the list
`fs` of its files in iteration order; `next(...)` over the comprehension
takes the first file whose name up to the first dot equals `query_name`,
and `StopIteration` becomes the raised `ValueError`. On success the new
cache is returned along with the list of file names read (the single
`query_path.open()`); on failure the exception propagates before the
cache assignment runs. -/
def read_query_file (fs : List QueryFile) (cache : QueryCache)
    (query_name : String) : Except String (QueryCache × List String) :=
  match List.find? (fun f => baseName f.name = query_name) fs with
  | none => Except.error ("Query " ++ query_name ++ " does not exist")
  | some f =>
      Except.ok
        (cacheInsert cache query_name
          { script := endswith f.name ".script.sql", query := f.contents },
         [f.name])

/-- The cache state after a `read_query_file` call observed from the
caller: on an exception the object's `query_cache` field is untouched. -/
def read_query_file_state (fs : List QueryFile) (cache : QueryCache)
    (query_name : String) : QueryCache :=
  match read_query_file fs cache query_name with
  | Except.error _ => cache
  | Except.ok (c, _) => c

/-- Embeds `cache_named_query`: reads the query from the source unless it
is already present in the cache. The second component is the list of file
names read. -/
def cache_named_query (fs : List QueryFile) (cache : QueryCache)
    (query_name : String) : Except String (QueryCache × List String) :=
  if cacheHas cache query_name then Except.ok (cache, [])
  else read_query_file fs cache query_name

/-! ## Data model (`src/notifier/types.py`) -/

/-- A user's (un)subscription to a single thread or post
(`Subscription` in `types.py`); `sub` is `1` or `-1`. -/
structure Subscription where
  thread_id : String
  post_id : Option String
  sub : Int
deriving DecidableEq, Repr

/-- Information for a single post (`RawPost` in `types.py`). -/
structure RawPost where
  id : String
  thread_id : String
  parent_post_id : Option String
  posted_timestamp : Int
  title : String
  snippet : String
  user_id : String
  username : String
deriving DecidableEq, Repr

/-- Information about a thread as stored in the database
(`ThreadInfo` in `types.py`). -/
structure ThreadInfo where
  id : String
  title : String
  wiki_id : String
  category_id : Option String
  category_name : Option String
  creator_username : Option String
  created_timestamp : Int
deriving DecidableEq, Repr

/-- A single remote override config (`GlobalOverrideConfig` in
`types.py`): an action (`"mute"` or `"mute_thread"`) plus optional
matcher fields. -/
structure GlobalOverrideConfig where
  action : String
  category_id_is : Option String
  thread_id_is : Option String
  thread_title_matches : Option String
deriving DecidableEq, Repr

/-- The result of `get_new_posts_for_user` (`NewPostsInfo` in
`types.py`): the deduplicated thread posts and post replies. -/
structure NewPostsInfo where
  thread_posts : List RawPost
  post_replies : List RawPost
deriving DecidableEq, Repr

/-- The cached database state read by the notification queries: stored
threads, stored posts, each user's subscriptions (`manual_subs` together
with `auto_subs`), and the global overrides keyed by wiki ID. -/
structure DBState where
  threads : List ThreadInfo
  posts : List RawPost
  subs : String → List Subscription
  overrides : List (String × List GlobalOverrideConfig)

/-! ## Notification computation engine
(`src/notifier/database.py`, `SqliteDriver.get_new_posts_for_user`).
The two SQL query texts live in the `databasequeries` module, which is
absent from the repository sources; the two candidate queries below are
modelled from the spec (sections 3, 4.4), while the deduplication step is
embedded from the Python source. -/

/-- Modelled from the spec: whether a single override rule matches a
thread — each matcher field that is present must match, and at least one
matcher field is present; the spec leaves the `thread_title_matches`
matching semantics configurable, so it is a parameter `tm`. -/
def overrideMatchesThread (tm : String → String → Bool)
    (o : GlobalOverrideConfig) (t : ThreadInfo) : Bool :=
  (o.category_id_is.isSome || o.thread_id_is.isSome
      || o.thread_title_matches.isSome)
  && (match o.category_id_is with
      | none => true
      | some c => t.category_id = some c)
  && (match o.thread_id_is with
      | none => true
      | some i => t.id = i)
  && (match o.thread_title_matches with
      | none => true
      | some pat => tm pat t.title)

/-- Modelled from the spec: a thread is muted when an active mute rule for
its wiki matches it. -/
def threadMuted (tm : String → String → Bool) (db : DBState)
    (t : ThreadInfo) : Bool :=
  db.overrides.any fun wo =>
    wo.1 = t.wiki_id
    && wo.2.any fun o =>
      (o.action = "mute" || o.action = "mute_thread")
      && overrideMatchesThread tm o t

/-- Modelled from the spec: a post is excluded from both candidate queries
when its thread matches an active mute rule for its wiki. -/
def postMuted (tm : String → String → Bool) (db : DBState)
    (p : RawPost) : Bool :=
  match List.find? (fun t => t.id = p.thread_id) db.threads with
  | none => false
  | some t => threadMuted tm db t

/-- Modelled from the spec: the user is subscribed to a whole thread when
a `+1` subscription with no post ID names it and no `-1` unsubscription
with no post ID names it. -/
def subscribedToThread (subs : List Subscription) (tid : String) : Bool :=
  (subs.any fun s => s.thread_id = tid && s.post_id = none && s.sub = 1)
  && !(subs.any fun s => s.thread_id = tid && s.post_id = none && s.sub = -1)

/-- Modelled from the spec: an active `-1` unsubscription for the exact
`(thread_id, post_id)` pair of this post removes its eligibility. -/
def postUnsubscribed (subs : List Subscription) (p : RawPost) : Bool :=
  subs.any fun s =>
    s.thread_id = p.thread_id && s.post_id = some p.id && s.sub = -1

/-- Modelled from the spec: the user is subscribed to a single post when a
`+1` subscription names the `(thread_id, post_id)` pair and no `-1`
unsubscription names it. -/
def subscribedToPost (subs : List Subscription) (tid pid : String) : Bool :=
  (subs.any fun s => s.thread_id = tid && s.post_id = some pid && s.sub = 1)
  && !(subs.any fun s =>
        s.thread_id = tid && s.post_id = some pid && s.sub = -1)

/-- Modelled from the spec: query A of section 4.4
(`get_posts_in_subscribed_threads`, whose SQL file is absent from the
sources) — all posts made since the search timestamp in threads the user
is subscribed to, minus active `-1` unsubscriptions, minus muted
threads. -/
def get_posts_in_subscribed_threads (tm : String → String → Bool)
    (db : DBState) (user_id : String) (search_timestamp : Int) :
    List RawPost :=
  db.posts.filter fun p =>
    decide (search_timestamp ≤ p.posted_timestamp)
    && subscribedToThread (db.subs user_id) p.thread_id
    && !postUnsubscribed (db.subs user_id) p
    && !postMuted tm db p

/-- Modelled from the spec: query B of section 4.4
(`get_replies_to_subscribed_posts`, whose SQL file is absent from the
sources) — all posts made since the search timestamp that are direct
replies to a post the user is subscribed to, minus muted threads. -/
def get_replies_to_subscribed_posts (tm : String → String → Bool)
    (db : DBState) (user_id : String) (search_timestamp : Int) :
    List RawPost :=
  db.posts.filter fun p =>
    decide (search_timestamp ≤ p.posted_timestamp)
    && (match p.parent_post_id with
        | none => false
        | some pp => subscribedToPost (db.subs user_id) p.thread_id pp)
    && !postMuted tm db p

/-- Embeds `SqliteDriver.get_new_posts_for_user`
(`src/notifier/database.py`, lines 23-46): runs the two candidate
queries with the single `search_timestamp` parameter, then removes from
the thread posts every post whose ID occurs among the post replies, and
returns both lists. -/
def get_new_posts_for_user (tm : String → String → Bool) (db : DBState)
    (user_id : String) (search_timestamp : Int) : NewPostsInfo :=
  let thread_posts :=
    get_posts_in_subscribed_threads tm db user_id search_timestamp
  let post_replies :=
    get_replies_to_subscribed_posts tm db user_id search_timestamp
  let post_replies_ids : List String := post_replies.map (fun p => p.id)
  let thread_posts :=
    thread_posts.filter fun p => !(decide (p.id ∈ post_replies_ids))
  { thread_posts := thread_posts, post_replies := post_replies }

/-- The spec's words for the digest contract (sections 4.3, 4.4): the
same computation over a half-open timestamp range `[since, until_)`, for
comparison with the source function, which takes a single timestamp. -/
def get_new_posts_for_user_specRange (tm : String → String → Bool)
    (db : DBState) (user_id : String) (since until_ : Int) : NewPostsInfo :=
  let inRange := fun (p : RawPost) =>
    decide (since ≤ p.posted_timestamp) && decide (p.posted_timestamp < until_)
  let thread_posts :=
    (get_posts_in_subscribed_threads tm db user_id since).filter inRange
  let post_replies :=
    (get_replies_to_subscribed_posts tm db user_id since).filter inRange
  let post_replies_ids : List String := post_replies.map (fun p => p.id)
  let thread_posts :=
    thread_posts.filter fun p => !(decide (p.id ∈ post_replies_ids))
  { thread_posts := thread_posts, post_replies := post_replies }

/-! ## Scheduled tasks (`src/notifier/tasks.py`) -/

/-- The collaborator calls a task's `execute` method can make. The
vocabulary includes the per-user digest, delivery and bookkeeping steps
of the spec's section 4.5 so their absence from a trace is expressible;
the source bodies only ever emit `getNewPosts` and `getUsers`. -/
inductive TaskAction where
  | getNewPosts
  | getUsers
  | computeDigest (user : String)
  | deliver (user : String)
  | storeUserLastNotified (user : String)
deriving DecidableEq, Repr

/-- Embeds `Hourly.execute`: calls `get_new_posts()` then
`get_users()`; the loaded `users` are bound and unused, so the trace does
not depend on them. -/
def Hourly_execute (users : List String) : List TaskAction :=
  let _ := users
  [TaskAction.getNewPosts, TaskAction.getUsers]

/-- Embeds `Daily.execute`: calls `get_users()` only. -/
def Daily_execute (users : List String) : List TaskAction :=
  let _ := users
  [TaskAction.getUsers]

/-- Embeds `Weekly.execute`: calls `get_users()` only. -/
def Weekly_execute (users : List String) : List TaskAction :=
  let _ := users
  [TaskAction.getUsers]

/-- Embeds `Monthly.execute`: calls `get_users()` only. -/
def Monthly_execute (users : List String) : List TaskAction :=
  let _ := users
  [TaskAction.getUsers]

/-- The cron cadence expressions of the four task classes. -/
def Hourly_crontab : String := "0 * * * *"

/-- `Daily.crontab`. -/
def Daily_crontab : String := "0 0 * * *"

/-- `Weekly.crontab`. -/
def Weekly_crontab : String := "0 0 * * 0"

/-- `Monthly.crontab`. -/
def Monthly_crontab : String := "0 0 1 * *"

/-! ## Theorems -/

/-- C3: if the fetch callable raises an exception whose kind is in the
configured retryable set, `try_cache` returns normally (the exception is
swallowed), the store callable is never invoked, and the cached state is
left unchanged. -/
theorem try_cache_retryable_error_keeps_cache {E T C : Type}
    [DecidableEq E] [DecidableEq T]
    (e : E) (store : C → T → C) (do_not_store : T) (catch_ : List E)
    (cache : C) (h : e ∈ catch_) :
    try_cache (Except.error e) store do_not_store catch_ cache
      = Except.ok ([], cache) := by
  simp [try_cache, h]

/-- Witness for C3 at concrete inputs. -/
theorem try_cache_retryable_error_keeps_cache_witness :
    (0 : Nat) ∈ [0, 1]
    ∧ try_cache (Except.error (0 : Nat)) (fun (c : Nat) (v : Nat) => c + v)
        0 [0, 1] 7 = Except.ok ([], 7) :=
  ⟨by decide,
   try_cache_retryable_error_keeps_cache 0 (fun c v => c + v) 0 [0, 1] 7
     (by decide)⟩

/-- C4: if the fetch callable returns normally with a value not equal to
the configured skip value, the store callable is invoked exactly once,
with exactly that value as its argument. -/
theorem try_cache_fresh_value_stored {E T C : Type}
    [DecidableEq E] [DecidableEq T]
    (v : T) (store : C → T → C) (do_not_store : T) (catch_ : List E)
    (cache : C) (h : v ≠ do_not_store) :
    try_cache (Except.ok v) store do_not_store catch_ cache
      = Except.ok ([v], store cache v) := by
  simp [try_cache, h]

/-- Witness for C4 at concrete inputs. -/
theorem try_cache_fresh_value_stored_witness :
    (5 : Nat) ≠ 0
    ∧ try_cache (Except.ok (5 : Nat)) (fun (c : Nat) (v : Nat) => c + v)
        0 ([] : List Nat) 7 = Except.ok ([5], 12) :=
  ⟨by decide,
   try_cache_fresh_value_stored 5 (fun c v => c + v) 0 [] 7 (by decide)⟩

/-- C10: a fetch that returns the `do_not_store` skip value is never
stored; `try_cache` returns normally with the cache unchanged, exactly as
when the fetch raises a caught error; at the default skip value (`None`,
embedded as `Option.none`) a fetch returning `none` is likewise not
stored. -/
theorem try_cache_skip_value_discarded {E T C : Type}
    [DecidableEq E] [DecidableEq T]
    (store : C → T → C) (do_not_store : T) (catch_ : List E) (cache : C)
    (store' : C → Option T → C) (e : E) (h : e ∈ catch_) :
    try_cache (Except.ok do_not_store) store do_not_store catch_ cache
      = Except.ok ([], cache)
    ∧ try_cache (Except.ok do_not_store) store do_not_store catch_ cache
      = try_cache (Except.error e) store do_not_store catch_ cache
    ∧ try_cache_default (Except.ok (none : Option T)) store' catch_ cache
      = Except.ok ([], cache) := by
  refine ⟨?_, ?_, ?_⟩ <;> simp [try_cache, try_cache_default, h]

/-- Witness for C10 at concrete inputs. -/
theorem try_cache_skip_value_discarded_witness :
    (0 : Nat) ∈ [0]
    ∧ (try_cache (Except.ok (3 : Nat)) (fun (c : Nat) (v : Nat) => c + v)
         3 [0] 7 = Except.ok ([], 7)
       ∧ try_cache (Except.ok (3 : Nat)) (fun (c : Nat) (v : Nat) => c + v)
           3 [0] 7
         = try_cache (Except.error 0) (fun (c : Nat) (v : Nat) => c + v)
             3 [0] 7
       ∧ try_cache_default (Except.ok (none : Option Nat))
           (fun (c : Nat) (_ : Option Nat) => c) [0] 7
         = Except.ok ([], 7)) :=
  ⟨by decide,
   try_cache_skip_value_discarded (fun c v => c + v) 3 [0] 7
     (fun c _ => c) 0 (by decide)⟩

/-- C6: `read_query_file` fails if and only if no file of the query
directory has a base name (stripped of extension, i.e. up to the first
dot) equal to the requested name, and on that failure the query cache is
not modified. -/
theorem read_query_file_not_found_iff (fs : List QueryFile)
    (cache : QueryCache) (query_name : String) :
    ((∃ e, read_query_file fs cache query_name = Except.error e)
       ↔ ∀ f ∈ fs, baseName f.name ≠ query_name)
    ∧ ((∃ e, read_query_file fs cache query_name = Except.error e)
       → read_query_file_state fs cache query_name = cache) := by
  cases hfind : List.find? (fun f => baseName f.name = query_name) fs with
  | none =>
      have hall := List.find?_eq_none.mp hfind
      refine ⟨⟨fun _ f hf => by simpa using hall f hf, fun _ => ?_⟩, fun _ => ?_⟩
      · exact ⟨"Query " ++ query_name ++ " does not exist",
          by simp [read_query_file, hfind]⟩
      · simp [read_query_file_state, read_query_file, hfind]
  | some f =>
      have hmem := List.mem_of_find?_eq_some hfind
      have hp : baseName f.name = query_name := by
        simpa using List.find?_some hfind
      refine ⟨⟨?_, fun hall => absurd hp (hall f hmem)⟩, ?_⟩
      · rintro ⟨e, he⟩
        simp [read_query_file, hfind] at he
      · rintro ⟨e, he⟩
        simp [read_query_file, hfind] at he

/-- Witness for C6 at concrete inputs: a missing name leaves the cache
unchanged. -/
theorem read_query_file_not_found_iff_witness :
    read_query_file_state [⟨"get_posts.sql", "SELECT"⟩] [] "missing" = [] :=
  (read_query_file_not_found_iff [⟨"get_posts.sql", "SELECT"⟩] []
      "missing").2 ⟨_, rfl⟩

/-- C8: a successful `read_query_file` matched a file of the directory by
its base name stripped of extension; the cached `QueryDefinition` has
`script = true` exactly when the matched file's name ends in
`.script.sql`, its text is the full contents of that file, and exactly
that one file was read. -/
theorem read_query_file_matches_base_name (fs : List QueryFile)
    (cache : QueryCache) (query_name : String)
    (out : QueryCache × List String)
    (h : read_query_file fs cache query_name = Except.ok out) :
    ∃ f, f ∈ fs ∧ baseName f.name = query_name
      ∧ cacheLookup out.1 query_name
          = some { script := endswith f.name ".script.sql",
                   query := f.contents }
      ∧ out.2 = [f.name] := by
  cases hfind : List.find? (fun f => baseName f.name = query_name) fs with
  | none => simp [read_query_file, hfind] at h
  | some f =>
      have hout : out
          = (cacheInsert cache query_name
              { script := endswith f.name ".script.sql",
                query := f.contents }, [f.name]) := by
        simp [read_query_file, hfind] at h
        exact h.symm
      refine ⟨f, List.mem_of_find?_eq_some hfind,
        by simpa using List.find?_some hfind, ?_, by rw [hout]⟩
      rw [hout]
      simp [cacheLookup, cacheInsert, List.find?]

/-- Witness for C8 at concrete inputs: a `.script.sql` file is matched by
base name and flagged as a script. -/
theorem read_query_file_matches_base_name_witness :
    ∃ f, f ∈ [(⟨"q1.script.sql", "SELECT 1"⟩ : QueryFile)]
      ∧ baseName f.name = "q1"
      ∧ cacheLookup [("q1", { script := true, query := "SELECT 1" })] "q1"
          = some { script := endswith f.name ".script.sql",
                   query := f.contents }
      ∧ (["q1.script.sql"] : List String) = [f.name] :=
  read_query_file_matches_base_name [⟨"q1.script.sql", "SELECT 1"⟩] [] "q1"
    ([("q1", { script := true, query := "SELECT 1" })], ["q1.script.sql"])
    rfl

/-- A successful `cache_named_query` leaves the requested name present in
the resulting cache. -/
theorem cache_named_query_caches (fs : List QueryFile) (cache : QueryCache)
    (query_name : String) (out : QueryCache × List String)
    (h : cache_named_query fs cache query_name = Except.ok out) :
    cacheHas out.1 query_name = true := by
  unfold cache_named_query at h
  cases hc : cacheHas cache query_name with
  | true =>
      rw [hc] at h
      simp at h
      rw [← h]
      exact hc
  | false =>
      rw [hc] at h
      simp at h
      cases hfind : List.find? (fun f => baseName f.name = query_name) fs with
      | none => simp [read_query_file, hfind] at h
      | some f =>
          simp [read_query_file, hfind] at h
          rw [← h]
          simp [cacheInsert, cacheHas, List.find?]

/-- C5: after a successful `cache_named_query` for a name, a second call
for the same name — whatever the query directory now holds — returns the
same cache (hence serves the identical `QueryDefinition`, which the cache
does hold) and reads no file; after `clear_query_file_cache`, the next
call re-reads the directory, so an edited definition is picked up. -/
theorem cache_named_query_idempotent_until_cleared
    (fs fs' : List QueryFile) (cache : QueryCache) (query_name : String)
    (out : QueryCache × List String) (f : QueryFile)
    (h : cache_named_query fs cache query_name = Except.ok out)
    (hf : List.find? (fun g => baseName g.name = query_name) fs' = some f) :
    cache_named_query fs' out.1 query_name = Except.ok (out.1, [])
    ∧ (∃ d, cacheLookup out.1 query_name = some d)
    ∧ cache_named_query fs' clear_query_file_cache query_name
        = Except.ok
            (cacheInsert clear_query_file_cache query_name
              { script := endswith f.name ".script.sql",
                query := f.contents },
             [f.name]) := by
  have hhas := cache_named_query_caches fs cache query_name out h
  refine ⟨by simp [cache_named_query, hhas], ?_, ?_⟩
  · unfold cacheHas at hhas
    unfold cacheLookup
    cases hfind : List.find? (fun kv => kv.1 = query_name) out.1 with
    | none => rw [hfind] at hhas; simp at hhas
    | some kv => exact ⟨kv.2, by simp [hfind]⟩
  · simp [cache_named_query, cacheHas, clear_query_file_cache,
      read_query_file, List.find?, hf]

/-- Witness for C5 at concrete inputs: the second call serves the cached
definition without reading the edited file; after clearing, the edited
contents are picked up. -/
theorem cache_named_query_idempotent_until_cleared_witness :
    cache_named_query [⟨"q.sql", "NEW"⟩]
        [("q", { script := false, query := "OLD" })] "q"
      = Except.ok ([("q", { script := false, query := "OLD" })], [])
    ∧ (∃ d, cacheLookup [("q", { script := false, query := "OLD" })] "q"
        = some d)
    ∧ cache_named_query [⟨"q.sql", "NEW"⟩] clear_query_file_cache "q"
      = Except.ok ([("q", { script := false, query := "NEW" })],
          ["q.sql"]) :=
  cache_named_query_idempotent_until_cleared
    [⟨"q.sql", "OLD"⟩] [⟨"q.sql", "NEW"⟩] [] "q"
    ([("q", { script := false, query := "OLD" })], ["q.sql"])
    ⟨"q.sql", "NEW"⟩ rfl rfl

/-- Membership in query A: the post is cached, in range, in a subscribed
thread, not unsubscribed, and not muted. -/
theorem mem_posts_in_subscribed_threads {tm : String → String → Bool}
    {db : DBState} {u : String} {ts : Int} {p : RawPost} :
    p ∈ get_posts_in_subscribed_threads tm db u ts ↔
      p ∈ db.posts ∧ ts ≤ p.posted_timestamp
      ∧ subscribedToThread (db.subs u) p.thread_id = true
      ∧ postUnsubscribed (db.subs u) p = false
      ∧ postMuted tm db p = false := by
  simp [get_posts_in_subscribed_threads, List.mem_filter, and_assoc]

/-- Membership in query B: the post is cached, in range, a direct reply
to a subscribed post, and not muted. -/
theorem mem_replies_to_subscribed_posts {tm : String → String → Bool}
    {db : DBState} {u : String} {ts : Int} {p : RawPost} :
    p ∈ get_replies_to_subscribed_posts tm db u ts ↔
      p ∈ db.posts ∧ ts ≤ p.posted_timestamp
      ∧ (∃ pp, p.parent_post_id = some pp
          ∧ subscribedToPost (db.subs u) p.thread_id pp = true)
      ∧ postMuted tm db p = false := by
  cases hpp : p.parent_post_id with
  | none =>
      simp [get_replies_to_subscribed_posts, List.mem_filter, hpp]
  | some pp =>
      simp [get_replies_to_subscribed_posts, List.mem_filter, hpp, and_assoc]

/-- The returned payload: the post replies are query B unchanged, and the
thread posts are query A minus the posts whose ID occurs in query B. -/
theorem get_new_posts_for_user_components (tm : String → String → Bool)
    (db : DBState) (u : String) (ts : Int) :
    (get_new_posts_for_user tm db u ts).post_replies
      = get_replies_to_subscribed_posts tm db u ts
    ∧ (get_new_posts_for_user tm db u ts).thread_posts
      = (get_posts_in_subscribed_threads tm db u ts).filter
          (fun p => !(decide (p.id ∈
            (get_replies_to_subscribed_posts tm db u ts).map
              (fun r => r.id)))) :=
  ⟨rfl, rfl⟩

/-- C1: the payload returned by `get_new_posts_for_user` is ID-disjoint —
a post in both candidate sets lands in `post_replies` and never in
`thread_posts`, and no post ID occurs in both returned lists. -/
theorem get_new_posts_for_user_dedup (tm : String → String → Bool)
    (db : DBState) (u : String) (ts : Int) :
    (∀ p, p ∈ get_posts_in_subscribed_threads tm db u ts →
        p ∈ get_replies_to_subscribed_posts tm db u ts →
        p ∈ (get_new_posts_for_user tm db u ts).post_replies
        ∧ p ∉ (get_new_posts_for_user tm db u ts).thread_posts)
    ∧ ∀ p ∈ (get_new_posts_for_user tm db u ts).thread_posts,
        ∀ q ∈ (get_new_posts_for_user tm db u ts).post_replies,
          p.id ≠ q.id := by
  obtain ⟨hB, hA⟩ := get_new_posts_for_user_components tm db u ts
  constructor
  · intro p hpA hpB
    refine ⟨by rw [hB]; exact hpB, ?_⟩
    rw [hA]
    intro hmem
    have hfilt := (List.mem_filter.mp hmem).2
    simp only [Bool.not_eq_true', decide_eq_false_iff_not] at hfilt
    exact hfilt (List.mem_map_of_mem (fun r => r.id) hpB)
  · intro p hp q hq heq
    rw [hA] at hp
    have hfilt := (List.mem_filter.mp hp).2
    simp only [Bool.not_eq_true', decide_eq_false_iff_not] at hfilt
    rw [hB] at hq
    exact hfilt (heq ▸ List.mem_map_of_mem (fun r => r.id) hq)

/-- Example matcher for `thread_title_matches`: no pattern matches. -/
def exTm : String → String → Bool := fun _ _ => false

/-- Example thread `t1` of wiki `w`. -/
def exThread : ThreadInfo :=
  { id := "t1", title := "T", wiki_id := "w", category_id := none,
    category_name := none, creator_username := none,
    created_timestamp := 0 }

/-- Example top-level post `p1` in thread `t1` at timestamp 100. -/
def exP1 : RawPost :=
  { id := "p1", thread_id := "t1", parent_post_id := none,
    posted_timestamp := 100, title := "P1", snippet := "",
    user_id := "a", username := "A" }

/-- Example reply `p2` to `p1` in thread `t1` at timestamp 150. -/
def exP2 : RawPost :=
  { id := "p2", thread_id := "t1", parent_post_id := some "p1",
    posted_timestamp := 150, title := "P2", snippet := "",
    user_id := "b", username := "B" }

/-- Example database where user `u` holds a thread-level subscription to
`t1` and a post-level subscription to `p1`. -/
def exDb : DBState :=
  { threads := [exThread], posts := [exP1, exP2],
    subs := fun uid =>
      if uid = "u" then
        [{ thread_id := "t1", post_id := none, sub := 1 },
         { thread_id := "t1", post_id := some "p1", sub := 1 }]
      else [],
    overrides := [] }

/-- Witness for C1 at concrete inputs: the reply `p2` is in both
candidate sets and lands only in `post_replies`. -/
theorem get_new_posts_for_user_dedup_witness :
    exP2 ∈ (get_new_posts_for_user exTm exDb "u" 0).post_replies
    ∧ exP2 ∉ (get_new_posts_for_user exTm exDb "u" 0).thread_posts :=
  (get_new_posts_for_user_dedup exTm exDb "u" 0).1 exP2
    (by decide) (by decide)

/-- With no global overrides stored, no post is muted. -/
theorem postMuted_no_overrides (tm : String → String → Bool) (db : DBState)
    (p : RawPost) (hov : db.overrides = []) : postMuted tm db p = false := by
  unfold postMuted threadMuted
  rw [hov]
  cases List.find? (fun t => t.id = p.thread_id) db.threads <;> simp

/-- Against the subscription list `[+1 on thread T, -1 on post (T, P)]`,
no post subscription is active. -/
theorem subscribedToPost_pair (T P tid pid : String) :
    subscribedToPost [⟨T, none, 1⟩, ⟨T, some P, -1⟩] tid pid = false := by
  simp [subscribedToPost]

/-- Against the subscription list `[+1 on thread T, -1 on post (T, P)]`,
exactly thread T is subscribed. -/
theorem subscribedToThread_pair (T P tid : String) :
    subscribedToThread [⟨T, none, 1⟩, ⟨T, some P, -1⟩] tid = true
      ↔ T = tid := by
  simp [subscribedToThread]

/-- Against the subscription list `[+1 on thread T, -1 on post (T, P)]`,
exactly the post `(T, P)` is unsubscribed. -/
theorem postUnsubscribed_pair (T P : String) (p : RawPost) :
    postUnsubscribed [⟨T, none, 1⟩, ⟨T, some P, -1⟩] p = true
      ↔ T = p.thread_id ∧ P = p.id := by
  simp [postUnsubscribed]

/-- Against the subscription list `[+1 on thread T, -1 on post (T, P)]`,
query B returns nothing. -/
theorem replies_empty_pair_subs (tm : String → String → Bool)
    (db : DBState) (u T P : String) (ts : Int)
    (hsubs : db.subs u = [⟨T, none, 1⟩, ⟨T, some P, -1⟩]) :
    get_replies_to_subscribed_posts tm db u ts = [] := by
  unfold get_replies_to_subscribed_posts
  rw [List.filter_eq_nil_iff]
  intro p hp
  cases hpp : p.parent_post_id with
  | none => simp [hpp]
  | some pp => simp [hpp, hsubs, subscribedToPost_pair]

/-- C2: a user whose subscriptions are a thread-level `+1` on thread T
together with a post-level `-1` on post P of T gets a digest that
excludes P from both returned lists, while every other cached post of T
inside the time window is still included. -/
theorem unsubscription_precedence (tm : String → String → Bool)
    (db : DBState) (u T P : String) (ts : Int)
    (hov : db.overrides = [])
    (hsubs : db.subs u = [⟨T, none, 1⟩, ⟨T, some P, -1⟩]) :
    (∀ q ∈ (get_new_posts_for_user tm db u ts).thread_posts, q.id ≠ P)
    ∧ (∀ q ∈ (get_new_posts_for_user tm db u ts).post_replies, q.id ≠ P)
    ∧ (∀ q ∈ db.posts, q.thread_id = T → q.id ≠ P →
        ts ≤ q.posted_timestamp →
        q ∈ (get_new_posts_for_user tm db u ts).thread_posts
        ∨ q ∈ (get_new_posts_for_user tm db u ts).post_replies) := by
  obtain ⟨hB, hA⟩ := get_new_posts_for_user_components tm db u ts
  have hBempty := replies_empty_pair_subs tm db u T P ts hsubs
  refine ⟨?_, ?_, ?_⟩
  · intro q hq hqP
    rw [hA] at hq
    have hqA := (List.mem_filter.mp hq).1
    obtain ⟨-, -, hsub, hunsub, -⟩ := mem_posts_in_subscribed_threads.mp hqA
    rw [hsubs] at hsub hunsub
    have hT : T = q.thread_id := (subscribedToThread_pair T P q.thread_id).mp hsub
    have hcontra : postUnsubscribed [⟨T, none, 1⟩, ⟨T, some P, -1⟩] q = true :=
      (postUnsubscribed_pair T P q).mpr ⟨hT, hqP.symm⟩
    rw [hunsub] at hcontra
    exact Bool.false_ne_true hcontra
  · intro q hq
    rw [hB, hBempty] at hq
    exact absurd hq (List.not_mem_nil q)
  · intro q hq hqT hqP hts
    have hqA : q ∈ get_posts_in_subscribed_threads tm db u ts := by
      refine mem_posts_in_subscribed_threads.mpr
        ⟨hq, hts, ?_, ?_, postMuted_no_overrides tm db q hov⟩
      · rw [hsubs]
        exact (subscribedToThread_pair T P q.thread_id).mpr hqT.symm
      · rw [hsubs]
        cases hres : postUnsubscribed [⟨T, none, 1⟩, ⟨T, some P, -1⟩] q with
        | false => rfl
        | true =>
            obtain ⟨-, hP⟩ := (postUnsubscribed_pair T P q).mp hres
            exact absurd hP.symm hqP
    left
    rw [hA]
    refine List.mem_filter.mpr ⟨hqA, ?_⟩
    rw [hBempty]
    simp

/-- Example database for C2: user `u` holds a thread-level `+1` on `t1`
and a post-level `-1` on `(t1, p1)`. -/
def exDb2 : DBState :=
  { threads := [exThread], posts := [exP1, exP2],
    subs := fun uid =>
      if uid = "u" then
        [{ thread_id := "t1", post_id := none, sub := 1 },
         { thread_id := "t1", post_id := some "p1", sub := -1 }]
      else [],
    overrides := [] }

/-- Witness for C2 at concrete inputs: the other post `p2` of thread `t1`
is still included. -/
theorem unsubscription_precedence_witness :
    exP2 ∈ (get_new_posts_for_user exTm exDb2 "u" 0).thread_posts
    ∨ exP2 ∈ (get_new_posts_for_user exTm exDb2 "u" 0).post_replies :=
  (unsubscription_precedence exTm exDb2 "u" "t1" "p1" 0 rfl rfl).2.2 exP2
    (by decide) (by decide) (by decide) (by decide)

/-- Example post at timestamp 1000 for the timestamp-range check. -/
def exP3 : RawPost :=
  { id := "p3", thread_id := "t1", parent_post_id := none,
    posted_timestamp := 1000, title := "P3", snippet := "",
    user_id := "c", username := "C" }

/-- Example of the timestamp-range check: user `u` is subscribed to thread
`t1`, whose only cached post is at timestamp 1000. -/
def exDb7 : DBState :=
  { threads := [exThread], posts := [exP3],
    subs := fun uid =>
      if uid = "u" then [{ thread_id := "t1", post_id := none, sub := 1 }]
      else [],
    overrides := [] }

/-- C7: `SqliteDriver.get_new_posts_for_user` takes a single
`search_timestamp` and applies no upper bound — called with the lower
bound 0 of the claimed window `[0, 500)`, it returns the post at
timestamp 1000, which the half-open range semantics of the claim (and of
the abstract `BaseDatabaseDriver.get_new_posts_for_user` contract, which
declares a `timestamp_range` pair) excludes. -/
theorem get_new_posts_for_user_no_upper_bound :
    ((get_new_posts_for_user exTm exDb7 "u" 0).thread_posts.map
        (fun p => p.posted_timestamp) = [1000])
    ∧ (get_new_posts_for_user_specRange exTm exDb7 "u" 0 500).thread_posts
        = []
    ∧ (get_new_posts_for_user_specRange exTm exDb7 "u" 0 500).post_replies
        = [] := by
  decide

/-- C9 fails on the code: with a user loaded, no task's `execute` trace
contains a digest computation, a delivery, or a
`store_user_last_notified` call. -/
theorem tasks_no_delivery_counterexample :
    TaskAction.computeDigest "alice" ∉ Hourly_execute ["alice"]
    ∧ TaskAction.deliver "alice" ∉ Hourly_execute ["alice"]
    ∧ TaskAction.storeUserLastNotified "alice" ∉ Hourly_execute ["alice"]
    ∧ TaskAction.deliver "alice" ∉ Daily_execute ["alice"]
    ∧ TaskAction.storeUserLastNotified "alice" ∉ Daily_execute ["alice"]
    ∧ TaskAction.deliver "alice" ∉ Weekly_execute ["alice"]
    ∧ TaskAction.deliver "alice" ∉ Monthly_execute ["alice"] := by
  decide

/-- C9 amended: `Hourly.execute` performs the new-posts refresh and loads
the users; `Daily`, `Weekly` and `Monthly` only load the users — only the
Hourly task refreshes new posts — and no task's `execute` computes
digests, delegates delivery, or stores a last-notified timestamp. -/
theorem tasks_execute_traces (users : List String) :
    Hourly_execute users = [TaskAction.getNewPosts, TaskAction.getUsers]
    ∧ Daily_execute users = [TaskAction.getUsers]
    ∧ Weekly_execute users = [TaskAction.getUsers]
    ∧ Monthly_execute users = [TaskAction.getUsers]
    ∧ TaskAction.getNewPosts ∉ Daily_execute users
    ∧ TaskAction.getNewPosts ∉ Weekly_execute users
    ∧ TaskAction.getNewPosts ∉ Monthly_execute users
    ∧ (∀ user, TaskAction.computeDigest user ∉ Hourly_execute users
        ∧ TaskAction.deliver user ∉ Hourly_execute users
        ∧ TaskAction.storeUserLastNotified user ∉ Hourly_execute users
        ∧ TaskAction.deliver user ∉ Daily_execute users
        ∧ TaskAction.deliver user ∉ Weekly_execute users
        ∧ TaskAction.deliver user ∉ Monthly_execute users) := by
  refine ⟨rfl, rfl, rfl, rfl, ?_, ?_, ?_, ?_⟩ <;>
    simp [Hourly_execute, Daily_execute, Weekly_execute, Monthly_execute]

end Notifier
